import Mathlib

/-!
Verification of the owl repository's lighting subsystem.

This file embeds, as Lean definitions, the parts of the repository that the
claims are about:

* `src/server/light_detection.py` — the `LightDetector` class: temporal
  brightness window, per-method voting, vote aggregation and the
  stability-frame debounce in `analyze_frame`.
* `src/server/smart_lighting_automation.py` — the `SmartLightingController`:
  `esp_light_control`, `send_notification`, `handle_user_response`,
  `schedule_auto_turn_off` and `process_frame`.
* `src/server/video_processor.py` — the motion-gated frame sampler inside
  `process_video` (lines 398-440).

Frames are abstracted by the two quantities `analyze_frame` actually consumes
downstream of the metric extractors: the weighted brightness
(`roi_weighted_brightness`, which equals `mean_brightness` when no ROI is
configured) and the histogram bright-pixel ratio.  Python floats are modelled
as rationals; all arithmetic in the modelled paths is exact on the inputs
used.  `np.std` (an irrational square root) is modelled in `ℝ`.
-/

namespace Owl

/-- Lighting states.  `LState.unknown` also encodes the Python `None`
(`current_state` is initialised to `None`; the string `'unknown'` is never
assigned to it, and every use of `current_state` — truthiness tests,
`== 'on'`/`== 'off'` comparisons, inequality with vote states — behaves
identically under this encoding). -/
inductive LState where
  | on
  | off
  | unknown
deriving DecidableEq, Repr

/-- Direction of a temporal brightness change (`change_direction`). -/
inductive ChangeDir where
  | increase
  | decrease
  | nochange
deriving DecidableEq, Repr

/-- Configuration of `LightDetector.__init__` (the fields consumed by the
modelled code paths).  The `detection_methods` list is modelled by three
membership booleans. -/
structure LDConfig where
  brightness_threshold_low : ℚ
  brightness_threshold_high : ℚ
  brightness_hysteresis : ℚ
  bright_pixel_ratio_on : ℚ
  bright_pixel_ratio_off : ℚ
  temporal_window_size : ℕ
  brightness_change_threshold : ℚ
  stability_frames : ℕ
  use_brightness : Bool
  use_histogram : Bool
  use_temporal : Bool
deriving DecidableEq, Repr

/-- The default configuration of `LightDetector.__init__`. -/
def defaultConfig : LDConfig where
  brightness_threshold_low := 50
  brightness_threshold_high := 120
  brightness_hysteresis := 10
  bright_pixel_ratio_on := 15 / 100
  bright_pixel_ratio_off := 5 / 100
  temporal_window_size := 5
  brightness_change_threshold := 30
  stability_frames := 3
  use_brightness := true
  use_histogram := true
  use_temporal := true

/-- Mutable state of a `LightDetector` instance (the fields the claims are
about). -/
structure LDState where
  current_state : LState
  brightness_history : List ℚ
  frames_in_current_state : ℕ
  state_changes_detected : ℕ
  total_frames_analyzed : ℕ
deriving DecidableEq, Repr

/-- A fresh detector (`__init__` / `reset_state`). -/
def initState : LDState where
  current_state := .unknown
  brightness_history := []
  frames_in_current_state := 0
  state_changes_detected := 0
  total_frames_analyzed := 0

/-- A frame, abstracted by the two metrics `classify_lighting_state` reads:
the weighted brightness and the histogram bright-pixel ratio. -/
structure Frame where
  brightness : ℚ
  bright_pixel_ratio : ℚ
deriving DecidableEq, Repr

/-- A uniform grayscale frame of integer brightness `b`: its mean (and hence
`roi_weighted_brightness` with no ROI) is `b`, and its histogram mass sits in
the single bin `⌊b·64/256⌋`, so the bright-pixel ratio over bins `≥ 42`
(= `int(170*64/256)`) is `1` when `168 ≤ b` and `0` otherwise. -/
def uniformFrame (b : ℚ) : Frame :=
  ⟨b, if (168 : ℚ) ≤ b then 1 else 0⟩

/-- Output of `detect_temporal_changes` consumed by the classifier (the
stability score is only reported, never consumed; it is modelled separately
by `stabilityScore`). -/
structure TemporalChanges where
  brightness_change : ℚ
  significant_change : Bool
  change_direction : ChangeDir
deriving DecidableEq, Repr

/-- `detect_temporal_changes` lines 220-226: append the brightness, then pop
the oldest sample once the window exceeds `temporal_window_size`. -/
def pushHistory (cfg : LDConfig) (h : List ℚ) (b : ℚ) : List ℚ :=
  let h2 := h ++ [b]
  if cfg.temporal_window_size < h2.length then h2.tail else h2

/-- `detect_temporal_changes` lines 213-237: the updated window together with
the change signals.  `self.brightness_history[-2]` is the last element of
`dropLast` of the updated window (guarded by the window having length ≥ 2,
exactly as in the source). -/
def detectTemporalChanges (cfg : LDConfig) (h : List ℚ) (b : ℚ) :
    List ℚ × TemporalChanges :=
  let h2 := pushHistory cfg h b
  if 2 ≤ h2.length then
    let prev := h2.dropLast.getLast?.getD 0
    let ch := b - prev
    if cfg.brightness_change_threshold < |ch| then
      ⟨h2, ⟨ch, true, if 0 < ch then .increase else .decrease⟩⟩
    else ⟨h2, ⟨ch, false, .nochange⟩⟩
  else
    ⟨h2, ⟨0, false, .nochange⟩⟩

/-- Mean of a list (`np.mean`). -/
def listMean (l : List ℚ) : ℚ := l.sum / l.length

/-- Population variance of a list (the quantity under `np.std`'s square
root). -/
def popVar (l : List ℚ) : ℚ :=
  (l.map (fun x => (x - listMean l) ^ 2)).sum / l.length

/-- `np.std`: population standard deviation. -/
noncomputable def npStd (l : List ℚ) : ℝ := Real.sqrt (popVar l)

/-- `detect_temporal_changes` lines 239-242: the reported stability score is
the standard deviation of the window once it is full, `0` before that. -/
noncomputable def stabilityScore (cfg : LDConfig) (h : List ℚ) : ℝ :=
  if cfg.temporal_window_size ≤ h.length then npStd h else 0

/-- `classify_lighting_state` method 1 (lines 267-294): brightness vote with
hysteresis on the committed state. -/
def brightnessVote (cfg : LDConfig) (cur : LState) (b : ℚ) : List (LState × ℚ) :=
  if cfg.use_brightness then
    let tl := if cur = .on then cfg.brightness_threshold_low - cfg.brightness_hysteresis
              else cfg.brightness_threshold_low
    let th := if cur = .off then cfg.brightness_threshold_high + cfg.brightness_hysteresis
              else cfg.brightness_threshold_high
    if b < tl then [(.off, 8 / 10)]
    else if th < b then [(.on, 8 / 10)]
    else if cur ≠ .unknown then [(cur, 3 / 10)]
    else [(.unknown, 1 / 10)]
  else []

/-- `classify_lighting_state` method 2 (lines 296-307): histogram vote from
the bright-pixel ratio. -/
def histogramVote (cfg : LDConfig) (ratio : ℚ) : List (LState × ℚ) :=
  if cfg.use_histogram then
    if cfg.bright_pixel_ratio_on < ratio then [(.on, 7 / 10)]
    else if ratio < cfg.bright_pixel_ratio_off then [(.off, 7 / 10)]
    else []
  else []

/-- `classify_lighting_state` method 3 (lines 309-319): temporal vote on a
significant change. -/
def temporalVote (cfg : LDConfig) (tc : TemporalChanges) : List (LState × ℚ) :=
  if cfg.use_temporal && tc.significant_change then
    if tc.change_direction = .increase ∧ cfg.brightness_change_threshold < tc.brightness_change then
      [(.on, 9 / 10)]
    else if tc.change_direction = .decrease ∧ cfg.brightness_change_threshold < |tc.brightness_change| then
      [(.off, 9 / 10)]
    else []
  else []

/-- Add one vote to the grouped-by-state accumulator (`state_votes` dict,
which preserves first-insertion order). -/
def addVote (acc : List (LState × List ℚ)) (v : LState × ℚ) : List (LState × List ℚ) :=
  if acc.any (fun p => p.1 = v.1) then
    acc.map (fun p => if p.1 = v.1 then (p.1, p.2 ++ [v.2]) else p)
  else acc ++ [(v.1, [v.2])]

/-- `classify_lighting_state` lines 323-328: group the votes by state. -/
def groupVotes (votes : List (LState × ℚ)) : List (LState × List ℚ) :=
  votes.foldl addVote []

/-- `classify_lighting_state` lines 330-333: average each group's weights. -/
def stateScores (votes : List (LState × ℚ)) : List (LState × ℚ) :=
  (groupVotes votes).map (fun p => (p.1, listMean p.2))

/-- Python's `max(..., key=lambda x: x[1])`: the first entry with the
greatest score. -/
def bestVote : List (LState × ℚ) → LState × ℚ
  | [] => (.unknown, 0)
  | s :: rest => rest.foldl (fun b p => if b.2 < p.2 then p else b) s

/-- A classification result (`state`, `confidence`). -/
structure Classification where
  state : LState
  confidence : ℚ
deriving DecidableEq, Repr

/-- `classify_lighting_state` lines 321-339: with no votes the result keeps
its initial `('unknown', 0.0)`; otherwise the state with the highest averaged
weight wins, its average becoming the confidence. -/
def combineVotes (votes : List (LState × ℚ)) : Classification :=
  if votes.isEmpty then ⟨.unknown, 0⟩
  else ⟨(bestVote (stateScores votes)).1, (bestVote (stateScores votes)).2⟩

/-- `classify_lighting_state`: run the three voting methods in source order
and combine. -/
def classifyLightingState (cfg : LDConfig) (cur : LState) (f : Frame)
    (tc : TemporalChanges) : Classification :=
  combineVotes (brightnessVote cfg cur f.brightness
    ++ histogramVote cfg f.bright_pixel_ratio
    ++ temporalVote cfg tc)

/-- `analyze_frame` lines 385-405: the stability-frame debounce on the
committed state (the brightness history is updated separately). -/
def updateStateMachine (cfg : LDConfig) (s : LDState) (cls : LState) : LDState :=
  if cls ≠ .unknown then
    if s.current_state ≠ cls then
      if cfg.stability_frames ≤ s.frames_in_current_state then
        { s with current_state := cls
                 frames_in_current_state := 1
                 state_changes_detected := s.state_changes_detected + 1 }
      else
        { s with frames_in_current_state := s.frames_in_current_state + 1 }
    else
      { s with frames_in_current_state := 0 }
  else s

/-- Per-frame result of `analyze_frame`: the committed state
(`lighting_state`, with `unknown` encoding `None`), the `state_changed` flag
and the frame's instantaneous classification. -/
structure FrameResult where
  lighting_state : LState
  state_changed : Bool
  classification : Classification
deriving DecidableEq, Repr

/-- `analyze_frame` (lines 344-422) on the abstracted frame: push the
brightness into the temporal window, classify, debounce, and report. -/
def analyzeFrame (cfg : LDConfig) (s : LDState) (f : Frame) :
    LDState × FrameResult :=
  let td := detectTemporalChanges cfg s.brightness_history f.brightness
  let cls := classifyLightingState cfg s.current_state f td.2
  let s1 := updateStateMachine cfg s cls.state
  let s2 := { s1 with brightness_history := td.1
                      total_frames_analyzed := s1.total_frames_analyzed + 1 }
  (s2, ⟨s2.current_state,
        if s.current_state ≠ s2.current_state ∧ s2.current_state ≠ .unknown then true else false,
        cls⟩)

/-- Feed a list of frames through `analyze_frame`, collecting the per-frame
results. -/
def runDetector (cfg : LDConfig) (s : LDState) : List Frame → LDState × List FrameResult
  | [] => (s, [])
  | f :: fs =>
    let r := analyzeFrame cfg s f
    let rest := runDetector cfg r.1 fs
    (rest.1, r.2 :: rest.2)

/-- No step of the brightness trace rises by more than `thr` over the
previous sample; the `Option` argument is the last sample already in the
temporal window, if any. -/
def calmTrace (thr : ℚ) : Option ℚ → List ℚ → Prop
  | _, [] => True
  | none, b :: bs => calmTrace thr (some b) bs
  | some p, b :: bs => b - p ≤ thr ∧ calmTrace thr (some b) bs

/-- No step of the brightness trace moves by more than `thr` in absolute
value; the `Option` argument is the last sample already in the temporal
window, if any. -/
def steadyTrace (thr : ℚ) : Option ℚ → List ℚ → Prop
  | _, [] => True
  | none, b :: bs => steadyTrace thr (some b) bs
  | some p, b :: bs => |b - p| ≤ thr ∧ steadyTrace thr (some b) bs

/-- On/off command sent to the ESP light relay. -/
inductive EspAction where
  | on
  | off
deriving DecidableEq, Repr

/-- Audit-log tags (`log_automation_action` action strings). -/
inductive LogTag where
  | user_turn_off
  | user_keep_on
  | auto_turn_off
  | lights_change (st : Option LState)
deriving DecidableEq, Repr

/-- Observable side effects of the controller: actuator calls, failure log
lines, notifications, timer starts and audit-log writes. -/
inductive Act where
  | espCall (a : EspAction)
  | espFail
  | notificationSent (nid : ℕ)
  | notifyFail
  | timerStarted (tid : ℕ)
  | logEntry (tag : LogTag)
deriving DecidableEq, Repr

/-- `SmartLightingController` configuration fields consumed by the modelled
paths.  `person_timeout` defaults to 300; the source's `default_config`
defines no `user_response_timeout` — the repository's tests supply one. -/
structure SLConfig where
  test_mode : Bool
  person_timeout : ℚ
  user_response_timeout : ℚ
deriving DecidableEq, Repr

/-- The configuration used in the concrete controller scenarios:
`test_mode = False`, the default `person_timeout = 300`, and
`user_response_timeout = 180` as in the repository's multi-video test. -/
def slaConfig : SLConfig := ⟨false, 300, 180⟩

/-- A `threading.Timer` handle: its delay and whether `cancel()` was
called. -/
structure TimerRec where
  delay : ℚ
  cancelled : Bool
deriving DecidableEq, Repr

/-- Association-list lookup modelling Python dict access (camera ids,
modelled as `ℕ`, are distinct in every modelled run). -/
def lookupA {α : Type} : List (ℕ × α) → ℕ → Option α
  | [], _ => none
  | p :: rest, k => if p.1 = k then some p.2 else lookupA rest k

/-- Association-list update modelling Python dict assignment. -/
def insertA {α : Type} (m : List (ℕ × α)) (k : ℕ) (v : α) : List (ℕ × α) :=
  if (lookupA m k).isSome then m.map (fun p => if p.1 = k then (k, v) else p)
  else m ++ [(k, v)]

/-- Controller state.  `current_lighting_state` is one Python dict holding
both per-camera tracked states (keyed by camera id) and the fixed keys
`'lights_on'`, `'pending_notification'`, `'auto_turn_off_scheduled'` used by
the notification workflow; the fixed keys are modelled as separate fields
(they never collide with camera ids). -/
structure SLState where
  tracked : List (ℕ × Option LState)
  last_state_change : List (ℕ × ℚ)
  last_motion_time : List (ℕ × ℚ)
  lights_on : Bool
  pending_notification : Option ℕ
  auto_turn_off_scheduled : Option ℕ
  timers : List (ℕ × TimerRec)
  next_timer_id : ℕ
  next_notification_id : ℕ
deriving DecidableEq, Repr

/-- `esp_light_control` (lines 141-177): in test mode, report success
without any network call; otherwise POST to the relay — the call is
recorded, `espOk` abstracts its outcome (HTTP 200 versus an error status or
a raised exception), and every failure path logs and returns `False`
(all exceptions are caught). -/
def espLightControl (cfg : SLConfig) (a : EspAction) (espOk : Bool) : Bool × List Act :=
  if cfg.test_mode then (true, [])
  else if espOk then (true, [.espCall a])
  else (false, [.espCall a, .espFail])

/-- User responses accepted by `handle_user_response`. -/
inductive UserAction where
  | turn_off
  | keep_on
  | dismiss
deriving DecidableEq, Repr

/-- `threading.Timer.cancel` on the timer with handle `k`. -/
def cancelTimer (m : List (ℕ × TimerRec)) (k : ℕ) : List (ℕ × TimerRec) :=
  m.map (fun p => if p.1 = k then (p.1, { p.2 with cancelled := true }) else p)

/-- `handle_user_response` (lines 226-261): run the action-specific part
(on `turn_off`, an actuator `off` call whose success gates the `lights_on`
update and the audit log), then always clear the pending notification and
cancel any scheduled auto turn-off.  The notification id is only logged by
the source; it is never compared with the pending notification. -/
def handleUserResponse (cfg : SLConfig) (s : SLState) (_nid : ℕ) (action : UserAction)
    (espOk : Bool) : SLState × List Act :=
  let step1 : SLState × List Act :=
    match action with
    | .turn_off =>
      let r := espLightControl cfg .off espOk
      if r.1 then ({ s with lights_on := false }, r.2 ++ [.logEntry .user_turn_off])
      else (s, r.2)
    | .keep_on => (s, [.logEntry .user_keep_on])
    | .dismiss => (s, [])
  let s1 := { step1.1 with pending_notification := none }
  match s1.auto_turn_off_scheduled with
  | some tid =>
    ({ s1 with timers := cancelTimer s1.timers tid, auto_turn_off_scheduled := none },
      step1.2)
  | none => (s1, step1.2)

/-- `schedule_auto_turn_off` (lines 263-284): start a `threading.Timer` for
`user_response_timeout` seconds and store its handle in the state. -/
def scheduleAutoTurnOff (cfg : SLConfig) (s : SLState) : SLState × List Act :=
  ({ s with timers := s.timers ++ [(s.next_timer_id, ⟨cfg.user_response_timeout, false⟩)],
            auto_turn_off_scheduled := some s.next_timer_id,
            next_timer_id := s.next_timer_id + 1 },
    [.timerStarted s.next_timer_id])

/-- The `auto_turn_off` callback of `schedule_auto_turn_off`, invoked when
the timer's delay elapses.  A timer whose handle was cancelled
(`threading.Timer.cancel`) never runs its callback; on success the callback
turns the lights off, clears the pending notification and logs. -/
def fireAutoTurnOff (cfg : SLConfig) (s : SLState) (tid : ℕ) (espOk : Bool) :
    SLState × List Act :=
  match lookupA s.timers tid with
  | none => (s, [])
  | some t =>
    if t.cancelled then (s, [])
    else
      let r := espLightControl cfg .off espOk
      if r.1 then
        ({ s with lights_on := false, pending_notification := none },
          r.2 ++ [.logEntry .auto_turn_off])
      else (s, r.2)

/-- `send_notification` (lines 179-224): build the payload and POST it; in
test mode report the id without a network call.  On an HTTP failure or an
exception the function logs and returns `None`.  `sendOk` abstracts the
network outcome; the time-based id is modelled by a counter. -/
def sendNotification (cfg : SLConfig) (s : SLState) (sendOk : Bool) :
    Option ℕ × SLState × List Act :=
  let nid := s.next_notification_id
  let s1 := { s with next_notification_id := nid + 1 }
  if cfg.test_mode then (some nid, s1, [])
  else if sendOk then (some nid, s1, [.notificationSent nid])
  else (none, s1, [.notifyFail])

/-- `process_frame` (lines 311-363): lazily initialise per-camera tracking,
turn lights on when a person is detected while the detector reports `off`,
turn them off when the detector reports `on` and nobody has been seen for
more than `person_timeout` seconds, and log tracked-state mismatches.
`lightStatus` is `get_light_status`'s result (`None` while the detector's
committed state is still `None`).  The function never calls
`send_notification` or `schedule_auto_turn_off`, and the result of each
`esp_light_control` call is discarded. -/
def processFrame (cfg : SLConfig) (s : SLState) (camId : ℕ)
    (lightStatus : Option LState) (personDetected : Bool) (now : ℚ) (espOk : Bool) :
    SLState × List Act :=
  let s0 :=
    if (lookupA s.tracked camId).isSome then s
    else { s with tracked := insertA s.tracked camId lightStatus,
                  last_state_change := insertA s.last_state_change camId now,
                  last_motion_time := insertA s.last_motion_time camId 0 }
  let step1 : SLState × List Act :=
    if personDetected then
      let sA := { s0 with last_motion_time := insertA s0.last_motion_time camId now }
      if lightStatus = some .off then
        ({ sA with tracked := insertA sA.tracked camId (some .on),
                   last_state_change := insertA sA.last_state_change camId now },
          (espLightControl cfg .on espOk).2)
      else (sA, [])
    else if lightStatus = some .on then
      if cfg.person_timeout < now - ((lookupA s0.last_motion_time camId).getD 0) then
        ({ s0 with tracked := insertA s0.tracked camId (some .off),
                   last_state_change := insertA s0.last_state_change camId now },
          (espLightControl cfg .off espOk).2)
      else (s0, [])
    else (s0, [])
  if lightStatus ≠ (lookupA step1.1.tracked camId).getD none then
    (step1.1, step1.2 ++ [.logEntry (.lights_change lightStatus)])
  else (step1.1, step1.2)

/-- Number of notifications sent in an action trace. -/
def countNotifications (acts : List Act) : ℕ :=
  (acts.filter (fun a => match a with | .notificationSent _ => true | _ => false)).length

/-- Number of actuator `off` calls in an action trace. -/
def countEspOff (acts : List Act) : ℕ :=
  (acts.filter (fun a => a = .espCall .off)).length

/-- `process_video` motion-sampling constants
(video_processor.py lines 86-88, the active `USE_MOTION_DETECTION = True`
block; `FRAME_INTERVAL` is the forced-refresh maximum gap). -/
def MOTION_THRESHOLD : ℚ := 5 / 100

/-- Minimum number of frames between two processed frames. -/
def MIN_FRAME_GAP : ℤ := 5

/-- Maximum number of frames between two processed frames (forced refresh). -/
def FRAME_INTERVAL : ℤ := 30

/-- Fraction of pixels of two equal-sized down-scaled grayscale frames whose
absolute difference exceeds the fixed byte threshold 25 (`cv2.absdiff`,
then `cv2.threshold(diff, 25, 255, THRESH_BINARY)`, then
`np.count_nonzero / size`). -/
def motionScore (prev cur : List ℤ) : ℚ :=
  (((prev.zip cur).filter (fun p => 25 < (p.1 - p.2).natAbs)).length : ℚ)
    / ((prev.zip cur).length : ℚ)

/-- Sampler loop state: `prev_frame`, `last_processed_frame` and the loop
counter `frame_number`. -/
structure SamplerState where
  prev_frame : Option (List ℤ)
  last_processed_frame : ℤ
  frame_number : ℤ
deriving DecidableEq, Repr

/-- Initial sampler state: `prev_frame = None`,
`last_processed_frame = -MIN_FRAME_GAP` (line 380, "force processing the
first frame"). -/
def initSampler : SamplerState := ⟨none, -MIN_FRAME_GAP, 0⟩

/-- One iteration of the motion-gated sampling decision
(video_processor.py lines 403-437): with a previous frame and at least
`MIN_FRAME_GAP` frames since the last processed one, process on motion or on
the forced-refresh gap; otherwise process on the first frame or on the
forced-refresh gap.  `prev_frame` is updated on every iteration. -/
def samplerStep (s : SamplerState) (small : List ℤ) : SamplerState × Bool :=
  let n := s.frame_number
  let processed :=
    match s.prev_frame with
    | some p =>
      if MIN_FRAME_GAP ≤ n - s.last_processed_frame then
        if MOTION_THRESHOLD < motionScore p small
            ∨ FRAME_INTERVAL ≤ n - s.last_processed_frame then true else false
      else if n = 0 ∨ FRAME_INTERVAL ≤ n - s.last_processed_frame then true else false
    | none =>
      if n = 0 ∨ FRAME_INTERVAL ≤ n - s.last_processed_frame then true else false
  ⟨⟨some small, if processed then n else s.last_processed_frame, n + 1⟩, processed⟩

/-- Run the sampler over a frame stream, collecting the process/skip
decisions. -/
def samplerRun (s : SamplerState) : List (List ℤ) → List Bool
  | [] => []
  | f :: fs =>
    let r := samplerStep s f
    r.2 :: samplerRun r.1 fs

/-- Sampler state after consuming a list of frames. -/
def samplerStateAfter (s : SamplerState) (fs : List (List ℤ)) : SamplerState :=
  fs.foldl (fun a f => (samplerStep a f).1) s

/-- Modelled from claim C8's words, for comparison with the code: the
sampler keeps the previously *sampled* (processed) down-scaled frame and
computes the motion ratio of the current frame against it; the decision rule
is otherwise the claimed one. -/
structure ClaimSamplerState where
  last_sampled : Option (List ℤ)
  last_processed_frame : ℤ
  frame_number : ℤ
deriving DecidableEq, Repr

/-- Initial state of the claim-side sampler. -/
def initClaimSampler : ClaimSamplerState := ⟨none, -MIN_FRAME_GAP, 0⟩

/-- One step of the claim-side sampler: process exactly when the motion
ratio against the previously sampled frame exceeds the threshold with at
least `MIN_FRAME_GAP` frames elapsed, or `FRAME_INTERVAL` frames have
elapsed, or this is the very first frame; `last_sampled` is updated only on
processed frames. -/
def claimStep (s : ClaimSamplerState) (small : List ℤ) : ClaimSamplerState × Bool :=
  let n := s.frame_number
  let motionOk :=
    match s.last_sampled with
    | some p => if MOTION_THRESHOLD < motionScore p small then true else false
    | none => false
  let processed :=
    if (motionOk = true ∧ MIN_FRAME_GAP ≤ n - s.last_processed_frame)
        ∨ FRAME_INTERVAL ≤ n - s.last_processed_frame ∨ n = 0 then true else false
  if processed then (⟨some small, n, n + 1⟩, true)
  else ({ s with frame_number := n + 1 }, false)

/-- Run the claim-side sampler, collecting its decisions. -/
def claimRun (s : ClaimSamplerState) : List (List ℤ) → List Bool
  | [] => []
  | f :: fs =>
    let r := claimStep s f
    r.2 :: claimRun r.1 fs

/-- Decision rule of the amended claim C8: process exactly when this is the
very first frame, or the motion ratio against the *immediately preceding*
frame's down-scaled copy exceeds the threshold with at least `MIN_FRAME_GAP`
frames elapsed since the last processed frame, or `FRAME_INTERVAL` frames
have elapsed since the last processed frame. -/
def amendedMotion (prev : Option (List ℤ)) (small : List ℤ) : Bool :=
  match prev with
  | some p => if MOTION_THRESHOLD < motionScore p small then true else false
  | none => false

/-- Decision of the amended rule at one frame. -/
def amendedStep (prev : Option (List ℤ)) (last n : ℤ) (small : List ℤ) : Bool :=
  if n = 0
      ∨ (amendedMotion prev small = true ∧ MIN_FRAME_GAP ≤ n - last)
      ∨ FRAME_INTERVAL ≤ n - last then true
  else false

/-- Run the amended-claim decision rule: the reference frame is the previous
frame (updated on every frame), the last-processed counter only on processed
frames. -/
def amendedRun (prev : Option (List ℤ)) (last n : ℤ) : List (List ℤ) → List Bool
  | [] => []
  | f :: fs =>
    let d := amendedStep prev last n f
    d :: amendedRun (some f) (if d then n else last) (n + 1) fs

/-- Constructor disequality facts for `LState`, as rewriting equations
(`norm_num` does not run the `Decidable`-based `ite` reduction itself). -/
theorem lstate_on_off : (LState.on = LState.off) = False := by simp

/-- Constructor disequality: `on` and `unknown`. -/
theorem lstate_on_unknown : (LState.on = LState.unknown) = False := by simp

/-- Constructor disequality: `off` and `on`. -/
theorem lstate_off_on : (LState.off = LState.on) = False := by simp

/-- Constructor disequality: `off` and `unknown`. -/
theorem lstate_off_unknown : (LState.off = LState.unknown) = False := by simp

/-- Constructor disequality: `unknown` and `on`. -/
theorem lstate_unknown_on : (LState.unknown = LState.on) = False := by simp

/-- Constructor disequality: `unknown` and `off`. -/
theorem lstate_unknown_off : (LState.unknown = LState.off) = False := by simp

/-- C1: with the default thresholds (`low = 50`, `high = 120`,
`stability_frames = 3`), feeding five uniform frames of brightness 200 into a
fresh detector yields the committed state `on` from frame 3 onward (frames
numbered from 0) and `state_changed = true` exactly once, at frame 3: the
per-frame outputs are `None, None, None, on (changed), on`. -/
theorem c1_trace_on_from_frame3 :
    ((runDetector defaultConfig initState (List.replicate 5 (uniformFrame 200))).2.map
      (fun r => (r.lighting_state, r.state_changed))) =
    [(.unknown, false), (.unknown, false), (.unknown, false), (.on, true), (.on, false)] := by
  norm_num [runDetector, analyzeFrame, detectTemporalChanges, pushHistory,
    classifyLightingState, brightnessVote, histogramVote, temporalVote, combineVotes,
    bestVote, stateScores, groupVotes, addVote, listMean, defaultConfig, initState,
    updateStateMachine, uniformFrame, lstate_on_off, lstate_on_unknown, lstate_off_on,
    lstate_off_unknown, lstate_unknown_on, lstate_unknown_off, List.foldl_cons,
    List.foldl_nil, List.map_cons, List.map_nil]

/-- C2 counterexample: the brightness trace `5, 45, 5, 45, 5` (uniform
frames) is strictly below `brightness_threshold_low = 50` on all of its
5 ≥ `stability_frames` = 3 consecutive frames, yet a fresh detector ends the
run committed to `on`, not `off`: the `+40` jumps fire the temporal
increase vote (weight 0.9), which outvotes the brightness and histogram
`off` votes on every second frame, and the frame reaching the stability bar
happens to classify `on`. -/
theorem c2_counterexample :
    (∀ b ∈ [(5 : ℚ), 45, 5, 45, 5], b < defaultConfig.brightness_threshold_low) ∧
    defaultConfig.stability_frames ≤ 5 ∧
    (runDetector defaultConfig initState
      ([5, 45, 5, 45, 5].map uniformFrame)).1.current_state = .on := by
  norm_num [runDetector, analyzeFrame, detectTemporalChanges, pushHistory,
    classifyLightingState, brightnessVote, histogramVote, temporalVote, combineVotes,
    bestVote, stateScores, groupVotes, addVote, listMean, defaultConfig, initState,
    updateStateMachine, uniformFrame, lstate_on_off, lstate_on_unknown, lstate_off_on,
    lstate_off_unknown, lstate_unknown_on, lstate_unknown_off, List.foldl_cons,
    List.foldl_nil, List.map_cons, List.map_nil]

/-- C6 counterexample: a fresh detector driven to committed `on` by five
uniform frames of brightness 200, then fed the oscillation `49, 51, 49, 51`
(= `threshold_low ∓ 1`, all inside the hysteresis-adjusted band
`(50 − 10, 120)` of the committed `on` state, so the brightness method never
votes for a switch), nevertheless flips its committed state to `off`: the
histogram method votes `off` (weight 0.7) on every dark uniform frame and the
200→49 drop adds a temporal `off` vote, overriding the maintained
`(on, 0.3)` brightness vote. -/
theorem c6_counterexample :
    (runDetector defaultConfig initState
      (List.replicate 5 (uniformFrame 200))).1.current_state = .on ∧
    (runDetector defaultConfig
        ((runDetector defaultConfig initState (List.replicate 5 (uniformFrame 200))).1)
        ([49, 51, 49, 51].map uniformFrame)).1.current_state = .off := by
  norm_num [runDetector, analyzeFrame, detectTemporalChanges, pushHistory,
    classifyLightingState, brightnessVote, histogramVote, temporalVote, combineVotes,
    bestVote, stateScores, groupVotes, addVote, listMean, defaultConfig, initState,
    updateStateMachine, uniformFrame, lstate_on_off, lstate_on_unknown, lstate_off_on,
    lstate_off_unknown, lstate_unknown_on, lstate_unknown_off, List.foldl_cons,
    List.foldl_nil, List.map_cons, List.map_nil]

/-- C10: a call to `analyze_frame` whose instantaneous classification is
`unknown` leaves both `current_state` and `frames_in_current_state` exactly
as they were: the whole state-update block is guarded by
`if new_state != 'unknown'`. -/
theorem c10_unknown_no_effect (cfg : LDConfig) (s : LDState) (f : Frame)
    (h : (analyzeFrame cfg s f).2.classification.state = .unknown) :
    (analyzeFrame cfg s f).1.current_state = s.current_state ∧
    (analyzeFrame cfg s f).1.frames_in_current_state = s.frames_in_current_state := by
  have hc : (analyzeFrame cfg s f).2.classification
      = classifyLightingState cfg s.current_state f
          (detectTemporalChanges cfg s.brightness_history f.brightness).2 := rfl
  rw [hc] at h
  simp only [analyzeFrame]
  simp [updateStateMachine, h]

/-- Witness for C10 at a concrete input: a fresh detector on a frame of
brightness 80 (inside the 50–120 uncertain range) with bright-pixel ratio
0.1 (inside the histogram abstention band) classifies `unknown`, and the
call leaves the state fields untouched. -/
theorem c10_witness :
    (analyzeFrame defaultConfig initState ⟨80, 1 / 10⟩).2.classification.state = .unknown ∧
    (analyzeFrame defaultConfig initState ⟨80, 1 / 10⟩).1.current_state
      = initState.current_state ∧
    (analyzeFrame defaultConfig initState ⟨80, 1 / 10⟩).1.frames_in_current_state
      = initState.frames_in_current_state := by
  have h : (analyzeFrame defaultConfig initState ⟨80, 1 / 10⟩).2.classification.state
      = .unknown := by
    norm_num [runDetector, analyzeFrame, detectTemporalChanges, pushHistory,
    classifyLightingState, brightnessVote, histogramVote, temporalVote, combineVotes,
    bestVote, stateScores, groupVotes, addVote, listMean, defaultConfig, initState,
    updateStateMachine, uniformFrame, lstate_on_off, lstate_on_unknown, lstate_off_on,
    lstate_off_unknown, lstate_unknown_on, lstate_unknown_off, List.foldl_cons,
    List.foldl_nil, List.map_cons, List.map_nil]
  exact ⟨h, (c10_unknown_no_effect defaultConfig initState ⟨80, 1 / 10⟩ h).1,
    (c10_unknown_no_effect defaultConfig initState ⟨80, 1 / 10⟩ h).2⟩

/-- The running maximum used to model Python's `max(..., key)` stays inside
the candidate list. -/
theorem foldMax_mem (l : List (LState × ℚ)) (b : LState × ℚ) :
    l.foldl (fun a p => if a.2 < p.2 then p else a) b ∈ b :: l := by
  induction l generalizing b with
  | nil => simp
  | cons p rest ih =>
    simp only [List.foldl_cons]
    rcases List.mem_cons.mp (ih (if b.2 < p.2 then p else b)) with h1 | h2
    · rw [h1]
      split
      · exact List.mem_cons_of_mem _ (List.mem_cons_self _ _)
      · exact List.mem_cons_self _ _
    · exact List.mem_cons_of_mem _ (List.mem_cons_of_mem _ h2)

/-- The running maximum dominates every candidate. -/
theorem foldMax_ge (l : List (LState × ℚ)) (b : LState × ℚ) :
    ∀ x ∈ b :: l, x.2 ≤ (l.foldl (fun a p => if a.2 < p.2 then p else a) b).2 := by
  induction l generalizing b with
  | nil =>
    intro x hx
    rcases List.mem_cons.mp hx with rfl | hx2
    · exact le_refl _
    · simp at hx2
  | cons p rest ih =>
    intro x hx
    simp only [List.foldl_cons]
    have hb' : b.2 ≤ (if b.2 < p.2 then p else b).2 := by
      split
      · exact le_of_lt (by assumption)
      · exact le_refl _
    have hp' : p.2 ≤ (if b.2 < p.2 then p else b).2 := by
      split
      · exact le_refl _
      · exact le_of_not_lt (by assumption)
    rcases List.mem_cons.mp hx with rfl | hx2
    · exact le_trans hb' (ih _ _ (List.mem_cons_self _ _))
    · rcases List.mem_cons.mp hx2 with rfl | hx3
      · exact le_trans hp' (ih _ _ (List.mem_cons_self _ _))
      · exact ih _ x (List.mem_cons_of_mem _ hx3)

/-- Adding a vote never empties the grouped accumulator. -/
theorem addVote_ne_nil (acc : List (LState × List ℚ)) (v : LState × ℚ) :
    addVote acc v ≠ [] := by
  unfold addVote
  split
  · cases acc with
    | nil => simp_all
    | cons a t => simp
  · simp

/-- Grouping a non-empty vote list yields a non-empty list of groups. -/
theorem groupVotes_ne_nil (v : LState × ℚ) (vs : List (LState × ℚ)) :
    groupVotes (v :: vs) ≠ [] := by
  unfold groupVotes
  simp only [List.foldl_cons]
  generalize h : addVote [] v = acc0
  have h0 : acc0 ≠ [] := h ▸ addVote_ne_nil [] v
  clear h
  induction vs generalizing acc0 with
  | nil => simpa using h0
  | cons w ws ih => simp only [List.foldl_cons]; exact ih _ (addVote_ne_nil _ _)

/-- C7: `classify_lighting_state` aggregation: for every vote list, the
result is one of the per-state averaged scores (so its confidence equals the
average weight of its group) and its confidence dominates every other
state's average; for the empty vote list the result is `unknown` with
confidence 0, with no exception (the function is total). -/
theorem c7_vote_aggregation (votes : List (LState × ℚ)) :
    (votes = [] → combineVotes votes = ⟨.unknown, 0⟩) ∧
    (votes ≠ [] →
      ((combineVotes votes).state, (combineVotes votes).confidence) ∈ stateScores votes ∧
      ∀ p ∈ stateScores votes, p.2 ≤ (combineVotes votes).confidence) := by
  constructor
  · intro h; subst h; rfl
  · intro h
    match votes, h with
    | v :: vs, _ =>
      have hne : stateScores (v :: vs) ≠ [] := by
        unfold stateScores
        simpa using groupVotes_ne_nil v vs
      cases hs : stateScores (v :: vs) with
      | nil => exact absurd hs hne
      | cons s rest =>
        have hcv : combineVotes (v :: vs)
            = ⟨(bestVote (s :: rest)).1, (bestVote (s :: rest)).2⟩ := by
          simp [combineVotes, hs]
        constructor
        · rw [hcv]
          simpa [bestVote] using foldMax_mem rest s
        · intro p hp
          rw [hcv]
          simpa [bestVote] using foldMax_ge rest s p hp

/-- Witness for C7 at concrete inputs: the empty vote list yields
`unknown`/0, and for the votes `on@0.8, off@0.7` the winning pair is one of
the computed per-state scores. -/
theorem c7_witness :
    combineVotes [] = ⟨.unknown, 0⟩ ∧
    ((combineVotes [(LState.on, 8 / 10), (LState.off, 7 / 10)]).state,
      (combineVotes [(LState.on, 8 / 10), (LState.off, 7 / 10)]).confidence) ∈
        stateScores [(LState.on, 8 / 10), (LState.off, 7 / 10)] :=
  ⟨(c7_vote_aggregation []).1 rfl,
    ((c7_vote_aggregation [(LState.on, 8 / 10), (LState.off, 7 / 10)]).2 (by simp)).1⟩

/-- One push keeps the temporal window within its capacity. -/
theorem pushHistory_length_le (cfg : LDConfig) (h : List ℚ) (b : ℚ)
    (hl : h.length ≤ cfg.temporal_window_size) :
    (pushHistory cfg h b).length ≤ cfg.temporal_window_size := by
  simp only [pushHistory]
  split
  · simp only [List.length_tail, List.length_append, List.length_singleton]
    omega
  · rename_i hc
    simp only [List.length_append, List.length_singleton] at hc ⊢
    omega

/-- `analyze_frame` updates the brightness history exactly by one push. -/
theorem analyzeFrame_history (cfg : LDConfig) (s : LDState) (f : Frame) :
    (analyzeFrame cfg s f).1.brightness_history
      = pushHistory cfg s.brightness_history f.brightness := by
  have hd : (detectTemporalChanges cfg s.brightness_history f.brightness).1
      = pushHistory cfg s.brightness_history f.brightness := by
    simp only [detectTemporalChanges]
    split
    · split <;> rfl
    · rfl
  simp only [analyzeFrame, hd]

/-- Along any run of `analyze_frame` calls, the temporal window never grows
past its capacity. -/
theorem runDetector_history_le (cfg : LDConfig) (frames : List Frame) :
    ∀ s : LDState, s.brightness_history.length ≤ cfg.temporal_window_size →
      ((runDetector cfg s frames).1).brightness_history.length ≤ cfg.temporal_window_size := by
  induction frames with
  | nil => intro s hs; exact hs
  | cons f fs ih =>
    intro s hs
    simp only [runDetector]
    exact ih _ (by rw [analyzeFrame_history]; exact pushHistory_length_le cfg _ _ hs)

/-- C9: starting from a fresh detector, after any sequence of analysed
frames the temporal window's length never exceeds
`temporal_window_size`; the reported `stability_score` is `0` while the
window is not yet full, and once it is full it equals the (non-negative)
population standard deviation `npStd` of the window; it is non-negative in
every case. -/
theorem c9_temporal_window (cfg : LDConfig) (frames : List Frame) :
    ((runDetector cfg initState frames).1).brightness_history.length
        ≤ cfg.temporal_window_size ∧
    (((runDetector cfg initState frames).1).brightness_history.length
        < cfg.temporal_window_size →
      stabilityScore cfg ((runDetector cfg initState frames).1).brightness_history = 0) ∧
    (cfg.temporal_window_size
        ≤ ((runDetector cfg initState frames).1).brightness_history.length →
      stabilityScore cfg ((runDetector cfg initState frames).1).brightness_history
        = npStd ((runDetector cfg initState frames).1).brightness_history) ∧
    0 ≤ stabilityScore cfg ((runDetector cfg initState frames).1).brightness_history := by
  refine ⟨runDetector_history_le cfg frames initState (by simp [initState]), ?_, ?_, ?_⟩
  · intro hlt
    unfold stabilityScore
    rw [if_neg (by omega)]
  · intro hge
    unfold stabilityScore
    rw [if_pos hge]
  · unfold stabilityScore
    split
    · exact Real.sqrt_nonneg _
    · exact le_refl 0

/-- Witness for C9 at a concrete input: with no frames analysed yet the
window is within capacity and (being not yet full) reports stability 0. -/
theorem c9_witness :
    ((runDetector defaultConfig initState []).1).brightness_history.length
        ≤ defaultConfig.temporal_window_size ∧
    stabilityScore defaultConfig
        ((runDetector defaultConfig initState []).1).brightness_history = 0 :=
  ⟨(c9_temporal_window defaultConfig []).1,
    (c9_temporal_window defaultConfig []).2.1
      (by norm_num [runDetector, initState, defaultConfig])⟩

/-- A non-empty pushed window ends with the pushed sample. -/
theorem pushHistory_getLast (cfg : LDConfig) (h : List ℚ) (b : ℚ) :
    pushHistory cfg h b = [] ∨ (pushHistory cfg h b).getLast? = some b := by
  simp only [pushHistory]
  split
  · cases h with
    | nil => left; rfl
    | cons x t =>
      right
      simp only [List.cons_append, List.tail_cons]
      exact List.getLast?_concat t
  · right; exact List.getLast?_concat h

/-- A push grows the window by at most one sample. -/
theorem pushHistory_length_le_succ (cfg : LDConfig) (h : List ℚ) (b : ℚ) :
    (pushHistory cfg h b).length ≤ h.length + 1 := by
  simp only [pushHistory]
  split
  · simp only [List.length_tail, List.length_append, List.length_singleton]
    omega
  · simp only [List.length_append, List.length_singleton]
    omega

/-- When the pushed window still holds two samples, the sample before the
last one is the previous last sample. -/
theorem pushHistory_prev (cfg : LDConfig) (h : List ℚ) (b : ℚ)
    (hl : 2 ≤ (pushHistory cfg h b).length) :
    (pushHistory cfg h b).dropLast.getLast? = h.getLast? := by
  revert hl
  simp only [pushHistory]
  split
  · intro hl
    cases h with
    | nil => simp at hl
    | cons x t =>
      simp only [List.cons_append, List.tail_cons] at hl ⊢
      rw [List.dropLast_concat]
      cases t with
      | nil => simp at hl
      | cons y t' => rw [List.getLast?_cons_cons]
  · intro _
    rw [List.dropLast_concat]

/-- If the brightness does not rise above the change threshold relative to
the previous sample, the temporal method either abstains or votes `off`. -/
theorem temporalVote_of_calm (cfg : LDConfig) (h : List ℚ) (b : ℚ)
    (hc : ∀ p, h.getLast? = some p → b - p ≤ cfg.brightness_change_threshold) :
    temporalVote cfg (detectTemporalChanges cfg h b).2 = []
    ∨ temporalVote cfg (detectTemporalChanges cfg h b).2 = [(.off, 9 / 10)] := by
  simp only [detectTemporalChanges]
  split
  · rename_i hlen
    have hne : h ≠ [] := by
      intro h0
      subst h0
      have := pushHistory_length_le_succ cfg [] b
      simp at this
      omega
    obtain ⟨p, hp⟩ : ∃ p, h.getLast? = some p := by
      cases hq : h.getLast? with
      | none => exact absurd (List.getLast?_eq_none_iff.mp hq) hne
      | some p => exact ⟨p, rfl⟩
    have hprev : (pushHistory cfg h b).dropLast.getLast?.getD 0 = p := by
      rw [pushHistory_prev cfg h b hlen, hp]
      rfl
    rw [hprev]
    split
    · rename_i hsig
      have hle : b - p ≤ cfg.brightness_change_threshold := hc p hp
      have hneg : ¬ (0 < b - p) := by
        intro hpos
        rw [abs_of_pos hpos] at hsig
        linarith
      rw [if_neg hneg]
      cases hu : cfg.use_temporal with
      | false => left; simp [temporalVote, hu]
      | true => right; simp [temporalVote, hu, hsig]
    · left; simp [temporalVote]
  · left; simp [temporalVote]

/-- If the brightness moves by no more than the change threshold relative to
the previous sample, the temporal method abstains. -/
theorem temporalVote_of_steady (cfg : LDConfig) (h : List ℚ) (b : ℚ)
    (hc : ∀ p, h.getLast? = some p → |b - p| ≤ cfg.brightness_change_threshold) :
    temporalVote cfg (detectTemporalChanges cfg h b).2 = [] := by
  simp only [detectTemporalChanges]
  split
  · rename_i hlen
    have hne : h ≠ [] := by
      intro h0
      subst h0
      have := pushHistory_length_le_succ cfg [] b
      simp at this
      omega
    obtain ⟨p, hp⟩ : ∃ p, h.getLast? = some p := by
      cases hq : h.getLast? with
      | none => exact absurd (List.getLast?_eq_none_iff.mp hq) hne
      | some p => exact ⟨p, rfl⟩
    have hprev : (pushHistory cfg h b).dropLast.getLast?.getD 0 = p := by
      rw [pushHistory_prev cfg h b hlen, hp]
      rfl
    rw [hprev]
    split
    · rename_i hsig
      exact absurd hsig (not_lt.mpr (hc p hp))
    · simp [temporalVote]
  · simp [temporalVote]

/-- With the brightness strictly below the hysteresis-lowered low threshold,
the brightness method votes `off` whatever the committed state is. -/
theorem brightnessVote_off_vote (cfg : LDConfig) (cur : LState) (b : ℚ)
    (hub : cfg.use_brightness = true) (hh : 0 ≤ cfg.brightness_hysteresis)
    (hb : b < cfg.brightness_threshold_low - cfg.brightness_hysteresis) :
    brightnessVote cfg cur b = [(.off, 8 / 10)] := by
  have h1 : b < cfg.brightness_threshold_low := by linarith
  simp only [brightnessVote, hub, if_true]
  cases cur <;> simp [hb, h1]

/-- The three possible outcomes of the histogram method. -/
theorem histogramVote_cases (cfg : LDConfig) (r : ℚ) :
    histogramVote cfg r = [] ∨ histogramVote cfg r = [(.on, 7 / 10)]
    ∨ histogramVote cfg r = [(.off, 7 / 10)] := by
  simp only [histogramVote]
  split
  · split
    · right; left; rfl
    · split
      · right; right; rfl
      · left; rfl
  · left; rfl

/-- A frame strictly below the hysteresis-lowered low threshold whose
brightness does not jump up by more than the change threshold classifies
`off`, whatever the histogram method votes. -/
theorem classify_off (cfg : LDConfig) (cur : LState) (f : Frame) (h : List ℚ)
    (hub : cfg.use_brightness = true) (hh : 0 ≤ cfg.brightness_hysteresis)
    (hb : f.brightness < cfg.brightness_threshold_low - cfg.brightness_hysteresis)
    (hc : ∀ p, h.getLast? = some p → f.brightness - p ≤ cfg.brightness_change_threshold) :
    (classifyLightingState cfg cur f (detectTemporalChanges cfg h f.brightness).2).state
      = .off := by
  have hbv := brightnessVote_off_vote cfg cur f.brightness hub hh hb
  have htv := temporalVote_of_calm cfg h f.brightness hc
  have hhv := histogramVote_cases cfg f.bright_pixel_ratio
  simp only [classifyLightingState, hbv]
  rcases hhv with h1 | h1 | h1 <;> rcases htv with h2 | h2 <;> rw [h1, h2] <;>
    norm_num [combineVotes, bestVote, stateScores, groupVotes, addVote, listMean,
      lstate_on_off, lstate_on_unknown, lstate_off_on, lstate_off_unknown,
      lstate_unknown_on, lstate_unknown_off, List.foldl_cons, List.foldl_nil,
      List.map_cons, List.map_nil]

/-- Behaviour of the `analyze_frame` state update when the frame classifies
`off`: an `off` state stays `off`; a differing state with the stability bar
reached commits to `off`; a differing state below the bar keeps its state
and increments the counter. -/
theorem analyzeFrame_off_step (cfg : LDConfig) (s : LDState) (f : Frame)
    (hcls : (classifyLightingState cfg s.current_state f
        (detectTemporalChanges cfg s.brightness_history f.brightness).2).state = .off) :
    (s.current_state = .off → (analyzeFrame cfg s f).1.current_state = .off) ∧
    (s.current_state ≠ .off → cfg.stability_frames ≤ s.frames_in_current_state →
        (analyzeFrame cfg s f).1.current_state = .off) ∧
    (s.current_state ≠ .off → s.frames_in_current_state < cfg.stability_frames →
        (analyzeFrame cfg s f).1.current_state = s.current_state ∧
        (analyzeFrame cfg s f).1.frames_in_current_state
          = s.frames_in_current_state + 1) := by
  refine ⟨?_, ?_, ?_⟩
  · intro hcur
    rw [hcur] at hcls
    simp [analyzeFrame, updateStateMachine, hcls, hcur]
  · intro hcur hsf
    simp [analyzeFrame, updateStateMachine, hcls, hcur, hsf]
  · intro hcur hlt
    constructor <;>
      simp [analyzeFrame, updateStateMachine, hcls, hcur, Nat.not_le.mpr hlt]

/-- A chain bounded from an explicit last sample is also bounded with no
last sample. -/
theorem calmTrace_weaken (thr q : ℚ) (l : List ℚ)
    (h : calmTrace thr (some q) l) : calmTrace thr none l := by
  cases l with
  | nil => trivial
  | cons b bs =>
    simp only [calmTrace] at h ⊢
    exact h.2

/-- Split a calm chain at its head. -/
theorem calmTrace_head (thr : ℚ) (o : Option ℚ) (b : ℚ) (bs : List ℚ)
    (h : calmTrace thr o (b :: bs)) :
    (∀ p, o = some p → b - p ≤ thr) ∧ calmTrace thr (some b) bs := by
  cases o with
  | none =>
    simp only [calmTrace] at h
    exact ⟨fun p hp => Option.noConfusion hp, h⟩
  | some p =>
    simp only [calmTrace] at h
    refine ⟨fun q hq => ?_, h.2⟩
    injection hq with hq'
    rw [← hq']
    exact h.1

/-- A calm chain survives one `analyze_frame` step: the new window's last
sample is the consumed brightness (or the window is empty). -/
theorem calm_after_step (cfg : LDConfig) (s : LDState) (f : Frame) (bs : List ℚ)
    (h : calmTrace cfg.brightness_change_threshold (some f.brightness) bs) :
    calmTrace cfg.brightness_change_threshold
      ((analyzeFrame cfg s f).1.brightness_history).getLast? bs := by
  rw [analyzeFrame_history]
  rcases pushHistory_getLast cfg s.brightness_history f.brightness with h0 | h0
  · rw [h0]
    exact calmTrace_weaken _ _ _ h
  · rw [h0]
    exact h

/-- Once `off`, a run of calm sub-threshold frames keeps the committed state
`off`. -/
theorem runDetector_keep_off (cfg : LDConfig)
    (hub : cfg.use_brightness = true) (hh : 0 ≤ cfg.brightness_hysteresis) :
    ∀ (fs : List Frame) (s : LDState), s.current_state = .off →
      (∀ f ∈ fs, f.brightness < cfg.brightness_threshold_low - cfg.brightness_hysteresis) →
      calmTrace cfg.brightness_change_threshold s.brightness_history.getLast?
        (fs.map Frame.brightness) →
      ((runDetector cfg s fs).1).current_state = .off := by
  intro fs
  induction fs with
  | nil => intro s hs _ _; exact hs
  | cons f fs ih =>
    intro s hs hlow hcalm
    have hhead := calmTrace_head _ _ _ _ (by simpa using hcalm)
    have hcls := classify_off cfg s.current_state f s.brightness_history hub hh
      (hlow f (by simp)) hhead.1
    simp only [runDetector]
    exact ih _ ((analyzeFrame_off_step cfg s f hcls).1 hs)
      (fun g hg => hlow g (by simp [hg])) (calm_after_step cfg s f _ hhead.2)

/-- A long enough run of calm sub-threshold frames commits the detector to
`off`, whatever the starting state. -/
theorem runDetector_commit_off (cfg : LDConfig)
    (hub : cfg.use_brightness = true) (hh : 0 ≤ cfg.brightness_hysteresis) :
    ∀ (fs : List Frame) (s : LDState),
      (∀ f ∈ fs, f.brightness < cfg.brightness_threshold_low - cfg.brightness_hysteresis) →
      calmTrace cfg.brightness_change_threshold s.brightness_history.getLast?
        (fs.map Frame.brightness) →
      1 ≤ fs.length →
      cfg.stability_frames + 1 ≤ s.frames_in_current_state + fs.length →
      ((runDetector cfg s fs).1).current_state = .off := by
  intro fs
  induction fs with
  | nil => intro s _ _ h1 _; simp at h1
  | cons f fs ih =>
    intro s hlow hcalm _ hlen
    have hhead := calmTrace_head _ _ _ _ (by simpa using hcalm)
    have hcls := classify_off cfg s.current_state f s.brightness_history hub hh
      (hlow f (by simp)) hhead.1
    have hlow' : ∀ g ∈ fs, g.brightness
        < cfg.brightness_threshold_low - cfg.brightness_hysteresis :=
      fun g hg => hlow g (by simp [hg])
    have hcalm' := calm_after_step cfg s f _ hhead.2
    simp only [runDetector]
    by_cases hcur : s.current_state = .off
    · exact runDetector_keep_off cfg hub hh fs _
        ((analyzeFrame_off_step cfg s f hcls).1 hcur) hlow' hcalm'
    · by_cases hsf : cfg.stability_frames ≤ s.frames_in_current_state
      · exact runDetector_keep_off cfg hub hh fs _
          ((analyzeFrame_off_step cfg s f hcls).2.1 hcur hsf) hlow' hcalm'
      · have hstep := (analyzeFrame_off_step cfg s f hcls).2.2 hcur (Nat.lt_of_not_le hsf)
        apply ih _ hlow' hcalm'
        · have hc : s.frames_in_current_state < cfg.stability_frames := Nat.lt_of_not_le hsf
          simp only [List.length_cons] at hlen
          omega
        · rw [hstep.2]
          simp only [List.length_cons] at hlen
          omega

/-- C2 amended: for every brightness sequence in which, for at least
`stability_frames + 1` consecutive analysed frames, the brightness stays
strictly below `brightness_threshold_low - brightness_hysteresis` and never
rises by more than `brightness_change_threshold` over the previous sample in
the temporal window, the committed `current_state` is `off` by the end of
that run — for any starting state, with the brightness method enabled and a
non-negative hysteresis.  (The original claim fails both because
`stability_frames` consecutive frames only raise the counter to the bar —
the commit happens one call later — and because an in-range upward jump
larger than the change threshold fires a temporal `on` vote that outvotes
the `off` votes: see the counterexample.) -/
theorem c2_amended (cfg : LDConfig) (s : LDState) (fs : List Frame)
    (hub : cfg.use_brightness = true)
    (hh : 0 ≤ cfg.brightness_hysteresis)
    (hlow : ∀ f ∈ fs, f.brightness
      < cfg.brightness_threshold_low - cfg.brightness_hysteresis)
    (hcalm : calmTrace cfg.brightness_change_threshold
      s.brightness_history.getLast? (fs.map Frame.brightness))
    (hlen : cfg.stability_frames + 1 ≤ fs.length) :
    ((runDetector cfg s fs).1).current_state = .off :=
  runDetector_commit_off cfg hub hh fs s hlow hcalm (by omega) (by omega)

/-- Witness for the amended C2 at a concrete input: four uniform frames of
brightness 10 (4 = `stability_frames + 1`) drive a fresh detector to
committed `off`. -/
theorem c2_amended_witness :
    ((runDetector defaultConfig initState
      [uniformFrame 10, uniformFrame 10, uniformFrame 10, uniformFrame 10]).1).current_state
      = .off := by
  apply c2_amended defaultConfig initState _ rfl
  · norm_num [defaultConfig]
  · intro f hf
    simp only [List.mem_cons, List.not_mem_nil, or_false] at hf
    rcases hf with rfl | rfl | rfl | rfl <;> norm_num [uniformFrame, defaultConfig]
  · norm_num [calmTrace, uniformFrame, initState, defaultConfig]
  · norm_num [defaultConfig]

/-- The histogram method abstains when the bright-pixel ratio lies between
its two thresholds. -/
theorem histogramVote_abstain (cfg : LDConfig) (r : ℚ)
    (h1 : ¬ cfg.bright_pixel_ratio_on < r) (h2 : ¬ r < cfg.bright_pixel_ratio_off) :
    histogramVote cfg r = [] := by
  simp [histogramVote, h1, h2]

/-- For a committed state, a brightness of `threshold_low ∓ 1` never makes
the brightness method vote for the other state: it votes for the committed
state (confirming below the low threshold, or maintaining inside the
hysteresis-adjusted band) or abstains when the method is disabled. -/
theorem brightnessVote_keep (cfg : LDConfig) (cur : LState) (b : ℚ)
    (hcur : cur ≠ .unknown)
    (hh1 : 1 ≤ cfg.brightness_hysteresis)
    (hlh : cfg.brightness_threshold_low + 1 ≤ cfg.brightness_threshold_high)
    (hb : b = cfg.brightness_threshold_low - 1 ∨ b = cfg.brightness_threshold_low + 1) :
    brightnessVote cfg cur b = [(cur, 8 / 10)] ∨ brightnessVote cfg cur b = [(cur, 3 / 10)]
    ∨ brightnessVote cfg cur b = [] := by
  cases hu : cfg.use_brightness with
  | false => right; right; simp [brightnessVote, hu]
  | true =>
    simp only [brightnessVote, hu, if_true]
    cases cur
    · have hnlt : ¬ b < cfg.brightness_threshold_low - cfg.brightness_hysteresis :=
        not_lt.mpr (by rcases hb with rfl | rfl <;> linarith)
      have hngt : ¬ cfg.brightness_threshold_high < b :=
        not_lt.mpr (by rcases hb with rfl | rfl <;> linarith)
      right; left
      simp [hnlt, hngt]
    · rcases hb with rfl | rfl
      · left
        have hlt : cfg.brightness_threshold_low - 1 < cfg.brightness_threshold_low := by
          linarith
        simp [hlt]
      · right; left
        have hnlt : ¬ cfg.brightness_threshold_low + 1 < cfg.brightness_threshold_low :=
          not_lt.mpr (by linarith)
        have hngt : ¬ cfg.brightness_threshold_high + cfg.brightness_hysteresis
            < cfg.brightness_threshold_low + 1 :=
          not_lt.mpr (by linarith)
        simp [hnlt, hngt]
    · exact absurd rfl hcur

/-- A `threshold_low ∓ 1` frame with the histogram abstaining and no
significant temporal change classifies as the committed state itself, or as
`unknown`. -/
theorem classify_keep (cfg : LDConfig) (cur : LState) (f : Frame) (h : List ℚ)
    (hcur : cur ≠ .unknown)
    (hh1 : 1 ≤ cfg.brightness_hysteresis)
    (hlh : cfg.brightness_threshold_low + 1 ≤ cfg.brightness_threshold_high)
    (hb : f.brightness = cfg.brightness_threshold_low - 1
      ∨ f.brightness = cfg.brightness_threshold_low + 1)
    (hr1 : ¬ cfg.bright_pixel_ratio_on < f.bright_pixel_ratio)
    (hr2 : ¬ f.bright_pixel_ratio < cfg.bright_pixel_ratio_off)
    (hc : ∀ p, h.getLast? = some p →
      |f.brightness - p| ≤ cfg.brightness_change_threshold) :
    (classifyLightingState cfg cur f (detectTemporalChanges cfg h f.brightness).2).state = cur
    ∨ (classifyLightingState cfg cur f
        (detectTemporalChanges cfg h f.brightness).2).state = .unknown := by
  have hhv := histogramVote_abstain cfg f.bright_pixel_ratio hr1 hr2
  have htv := temporalVote_of_steady cfg h f.brightness hc
  have hbv := brightnessVote_keep cfg cur f.brightness hcur hh1 hlh hb
  simp only [classifyLightingState, hhv, htv, List.append_nil]
  rcases hbv with h1 | h1 | h1 <;> rw [h1]
  · left; simp [combineVotes, bestVote, stateScores, groupVotes, addVote, listMean]
  · left; simp [combineVotes, bestVote, stateScores, groupVotes, addVote, listMean]
  · right; simp [combineVotes]

/-- A frame that classifies either as the committed state or as `unknown`
leaves the committed state unchanged. -/
theorem analyzeFrame_keep (cfg : LDConfig) (s : LDState) (f : Frame)
    (hcls : (classifyLightingState cfg s.current_state f
        (detectTemporalChanges cfg s.brightness_history f.brightness).2).state
          = s.current_state
      ∨ (classifyLightingState cfg s.current_state f
        (detectTemporalChanges cfg s.brightness_history f.brightness).2).state
          = .unknown) :
    (analyzeFrame cfg s f).1.current_state = s.current_state := by
  rcases hcls with h | h
  · by_cases hu : s.current_state = .unknown
    · rw [hu] at h
      simp [analyzeFrame, updateStateMachine, h, hu]
    · simp [analyzeFrame, updateStateMachine, h, hu]
  · simp [analyzeFrame, updateStateMachine, h]

/-- A steady chain bounded from an explicit last sample is also bounded with
no last sample. -/
theorem steadyTrace_weaken (thr q : ℚ) (l : List ℚ)
    (h : steadyTrace thr (some q) l) : steadyTrace thr none l := by
  cases l with
  | nil => trivial
  | cons b bs =>
    simp only [steadyTrace] at h ⊢
    exact h.2

/-- Split a steady chain at its head. -/
theorem steadyTrace_head (thr : ℚ) (o : Option ℚ) (b : ℚ) (bs : List ℚ)
    (h : steadyTrace thr o (b :: bs)) :
    (∀ p, o = some p → |b - p| ≤ thr) ∧ steadyTrace thr (some b) bs := by
  cases o with
  | none =>
    simp only [steadyTrace] at h
    exact ⟨fun p hp => Option.noConfusion hp, h⟩
  | some p =>
    simp only [steadyTrace] at h
    refine ⟨fun q hq => ?_, h.2⟩
    injection hq with hq'
    rw [← hq']
    exact h.1

/-- A steady chain survives one `analyze_frame` step. -/
theorem steady_after_step (cfg : LDConfig) (s : LDState) (f : Frame) (bs : List ℚ)
    (h : steadyTrace cfg.brightness_change_threshold (some f.brightness) bs) :
    steadyTrace cfg.brightness_change_threshold
      ((analyzeFrame cfg s f).1.brightness_history).getLast? bs := by
  rw [analyzeFrame_history]
  rcases pushHistory_getLast cfg s.brightness_history f.brightness with h0 | h0
  · rw [h0]
    exact steadyTrace_weaken _ _ _ h
  · rw [h0]
    exact h

/-- C6 amended, auxiliary run form: with a committed state, oscillation
frames as in `classify_keep` never change the committed state. -/
theorem runDetector_keep_state (cfg : LDConfig)
    (hh1 : 1 ≤ cfg.brightness_hysteresis)
    (hlh : cfg.brightness_threshold_low + 1 ≤ cfg.brightness_threshold_high) :
    ∀ (fs : List Frame) (s : LDState), s.current_state ≠ .unknown →
      (∀ f ∈ fs, (f.brightness = cfg.brightness_threshold_low - 1
          ∨ f.brightness = cfg.brightness_threshold_low + 1)
        ∧ ¬ cfg.bright_pixel_ratio_on < f.bright_pixel_ratio
        ∧ ¬ f.bright_pixel_ratio < cfg.bright_pixel_ratio_off) →
      steadyTrace cfg.brightness_change_threshold s.brightness_history.getLast?
        (fs.map Frame.brightness) →
      ((runDetector cfg s fs).1).current_state = s.current_state := by
  intro fs
  induction fs with
  | nil => intro s _ _ _; rfl
  | cons f fs ih =>
    intro s hcur hosc hsteady
    have hhead := steadyTrace_head _ _ _ _ (by simpa using hsteady)
    have hf := hosc f (by simp)
    have hcls := classify_keep cfg s.current_state f s.brightness_history hcur hh1 hlh
      hf.1 hf.2.1 hf.2.2 hhead.1
    have hkeep := analyzeFrame_keep cfg s f hcls
    simp only [runDetector]
    rw [ih _ (by rw [hkeep]; exact hcur)
      (fun g hg => hosc g (by simp [hg])) (steady_after_step cfg s f _ hhead.2)]
    exact hkeep

/-- C6 amended: for a detector whose committed state is `on` or `off`
(not the fresh `None`), every sequence of frames with brightness oscillating
between `threshold_low - 1` and `threshold_low + 1`, histogram bright-pixel
ratio inside the abstention band, and no step of the brightness trace
exceeding `brightness_change_threshold` in absolute value, leaves the
committed `current_state` unchanged (for configurations with
`hysteresis ≥ 1` and `low + 1 ≤ high`, so the oscillation stays inside the
hysteresis-adjusted band).  (The original claim fails because the histogram
and temporal methods can outvote the maintained brightness vote — see the
counterexample — and because a fresh detector commits to `off` on such a
sequence.) -/
theorem c6_amended (cfg : LDConfig) (s : LDState) (fs : List Frame)
    (hcur : s.current_state ≠ .unknown)
    (hh1 : 1 ≤ cfg.brightness_hysteresis)
    (hlh : cfg.brightness_threshold_low + 1 ≤ cfg.brightness_threshold_high)
    (hosc : ∀ f ∈ fs, (f.brightness = cfg.brightness_threshold_low - 1
        ∨ f.brightness = cfg.brightness_threshold_low + 1)
      ∧ ¬ cfg.bright_pixel_ratio_on < f.bright_pixel_ratio
      ∧ ¬ f.bright_pixel_ratio < cfg.bright_pixel_ratio_off)
    (hsteady : steadyTrace cfg.brightness_change_threshold
      s.brightness_history.getLast? (fs.map Frame.brightness)) :
    ((runDetector cfg s fs).1).current_state = s.current_state :=
  runDetector_keep_state cfg hh1 hlh fs s hcur hosc hsteady

/-- Witness for the amended C6 at a concrete input: a detector committed to
`off` stays `off` on the oscillation `49, 51` with bright-pixel ratio 0.1. -/
theorem c6_amended_witness :
    ((runDetector defaultConfig ⟨.off, [], 0, 0, 0⟩
      [⟨49, 1 / 10⟩, ⟨51, 1 / 10⟩]).1).current_state = LState.off := by
  apply c6_amended defaultConfig ⟨.off, [], 0, 0, 0⟩ _ (by simp)
  · norm_num [defaultConfig]
  · norm_num [defaultConfig]
  · intro f hf
    simp only [List.mem_cons, List.not_mem_nil, or_false] at hf
    rcases hf with rfl | rfl <;> norm_num [defaultConfig]
  · norm_num [steadyTrace, defaultConfig]

/-- C3 (evaluation of the code at the failing input): with the lights
tracked `on`, the detector reporting `on`, no person seen since `t = 0`, the
frame processed at `t = 1000` (beyond `person_timeout = 300`) and no pending
Notification, `process_frame` issues an actuator `off` call directly and
creates no Notification and starts no auto-turn-off countdown — the claimed
notify/confirm workflow (`send_notification`, `schedule_auto_turn_off`) is
never invoked by `process_frame`. -/
theorem c3_no_notification :
    countNotifications (processFrame slaConfig
      ⟨[(0, some .on)], [(0, 0)], [(0, 0)], true, none, none, [], 0, 0⟩
      0 (some .on) false 1000 true).2 = 0 ∧
    Act.espCall .off ∈ (processFrame slaConfig
      ⟨[(0, some .on)], [(0, 0)], [(0, 0)], true, none, none, [], 0, 0⟩
      0 (some .on) false 1000 true).2 ∧
    (processFrame slaConfig
      ⟨[(0, some .on)], [(0, 0)], [(0, 0)], true, none, none, [], 0, 0⟩
      0 (some .on) false 1000 true).1.pending_notification = none ∧
    (processFrame slaConfig
      ⟨[(0, some .on)], [(0, 0)], [(0, 0)], true, none, none, [], 0, 0⟩
      0 (some .on) false 1000 true).1.auto_turn_off_scheduled = none := by
  norm_num [processFrame, espLightControl, lookupA, insertA, slaConfig,
    countNotifications, lstate_on_off, lstate_on_unknown, lstate_off_on,
    lstate_off_unknown, lstate_unknown_on, lstate_unknown_off]

/-- Cancelling a timer flips its `cancelled` flag in place. -/
theorem lookupA_cancelTimer (m : List (ℕ × TimerRec)) (k : ℕ) (v : TimerRec)
    (h : lookupA m k = some v) :
    lookupA (cancelTimer m k) k = some ⟨v.delay, true⟩ := by
  induction m with
  | nil => simp [lookupA] at h
  | cons p rest ih =>
    by_cases hk : p.1 = k
    · simp only [lookupA, hk, if_pos rfl] at h
      injection h with h
      subst h
      simp [cancelTimer, lookupA, hk]
    · simp only [lookupA, if_neg hk] at h
      simpa [cancelTimer, lookupA, hk] using ih h

/-- C4: a `turn_off` user response referencing the pending Notification
clears the pending Notification, cancels the scheduled auto-turn-off timer,
and once the response timeout later elapses the cancelled timer's callback
does nothing — so no second actuator `off` call occurs: outside test mode
the whole exchange performs exactly one actuator `off` call (the one made in
direct response to the user). -/
theorem c4_turn_off_cancels (cfg : SLConfig) (s : SLState) (nid tid : ℕ)
    (espOk1 espOk2 : Bool)
    (_hpend : s.pending_notification = some nid)
    (hsch : s.auto_turn_off_scheduled = some tid)
    (htim : lookupA s.timers tid = some ⟨cfg.user_response_timeout, false⟩) :
    (handleUserResponse cfg s nid .turn_off espOk1).1.pending_notification = none ∧
    (handleUserResponse cfg s nid .turn_off espOk1).1.auto_turn_off_scheduled = none ∧
    (fireAutoTurnOff cfg (handleUserResponse cfg s nid .turn_off espOk1).1 tid espOk2).2
      = [] ∧
    (cfg.test_mode = false →
      countEspOff ((handleUserResponse cfg s nid .turn_off espOk1).2
        ++ (fireAutoTurnOff cfg
              (handleUserResponse cfg s nid .turn_off espOk1).1 tid espOk2).2) = 1) := by
  have hresp : (handleUserResponse cfg s nid .turn_off espOk1).1
      = { (if (espLightControl cfg .off espOk1).1 then { s with lights_on := false } else s)
            with pending_notification := none,
                 timers := cancelTimer s.timers tid,
                 auto_turn_off_scheduled := none } := by
    cases he : (espLightControl cfg .off espOk1).1 <;>
      simp [handleUserResponse, he, hsch]
  have htim2 : lookupA (handleUserResponse cfg s nid .turn_off espOk1).1.timers tid
      = some ⟨cfg.user_response_timeout, true⟩ := by
    rw [hresp]
    cases (espLightControl cfg .off espOk1).1 <;>
      simpa using lookupA_cancelTimer s.timers tid _ htim
  have hfire : (fireAutoTurnOff cfg
      (handleUserResponse cfg s nid .turn_off espOk1).1 tid espOk2).2 = [] := by
    simp [fireAutoTurnOff, htim2]
  refine ⟨?_, ?_, hfire, ?_⟩
  · rw [hresp]
  · rw [hresp]
  · intro htm
    rw [hfire, List.append_nil]
    cases he : espOk1 <;>
      simp [handleUserResponse, espLightControl, htm, he, hsch, countEspOff]

/-- Witness for C4 at a concrete input: a controller with pending
notification 7 and an active timer 0 for 180 seconds, with both actuator
calls succeeding. -/
theorem c4_witness :
    (handleUserResponse slaConfig
      ⟨[], [], [], true, some 7, some 0, [(0, ⟨180, false⟩)], 1, 0⟩
      7 .turn_off true).1.pending_notification = none ∧
    (fireAutoTurnOff slaConfig
      (handleUserResponse slaConfig
        ⟨[], [], [], true, some 7, some 0, [(0, ⟨180, false⟩)], 1, 0⟩
        7 .turn_off true).1 0 true).2 = [] ∧
    countEspOff ((handleUserResponse slaConfig
        ⟨[], [], [], true, some 7, some 0, [(0, ⟨180, false⟩)], 1, 0⟩
        7 .turn_off true).2
      ++ (fireAutoTurnOff slaConfig
          (handleUserResponse slaConfig
            ⟨[], [], [], true, some 7, some 0, [(0, ⟨180, false⟩)], 1, 0⟩
            7 .turn_off true).1 0 true).2) = 1 := by
  have h := c4_turn_off_cancels slaConfig
    ⟨[], [], [], true, some 7, some 0, [(0, ⟨180, false⟩)], 1, 0⟩
    7 0 true true rfl rfl rfl
  exact ⟨h.1, h.2.2.1, h.2.2.2 rfl⟩

/-- C5 counterexample: with the actuator call failing (`espOk = false`),
`process_frame` on a person-present frame whose detector state is `off`
still flips its tracked per-camera lighting state from `off` to `on` — the
return value of `esp_light_control` is discarded — refuting the claim that a
failed actuator call leaves the tracked lighting state unchanged. -/
theorem c5_counterexample :
    lookupA (SLState.mk [(0, some .off)] [(0, 0)] [(0, 0)] false none none [] 0 0).tracked 0
      = some (some .off) ∧
    lookupA (processFrame slaConfig
      ⟨[(0, some .off)], [(0, 0)], [(0, 0)], false, none, none, [], 0, 0⟩
      0 (some .off) true 10 false).1.tracked 0 = some (some .on) ∧
    Act.espFail ∈ (processFrame slaConfig
      ⟨[(0, some .off)], [(0, 0)], [(0, 0)], false, none, none, [], 0, 0⟩
      0 (some .off) true 10 false).2 ∧
    Act.espCall .on ∈ (processFrame slaConfig
      ⟨[(0, some .off)], [(0, 0)], [(0, 0)], false, none, none, [], 0, 0⟩
      0 (some .off) true 10 false).2 := by
  norm_num [processFrame, espLightControl, lookupA, insertA, slaConfig,
    lstate_on_off, lstate_on_unknown, lstate_off_on, lstate_off_unknown,
    lstate_unknown_on, lstate_unknown_off]

/-- C5 amended: outside test mode, a failing actuator call is logged and
`esp_light_control` returns `False` without raising; `handle_user_response`
and the auto-turn-off callback leave `lights_on` unchanged when the call
fails; but `process_frame` updates its per-camera tracked lighting state the
same way whether the actuator call succeeds or fails (the retry still
happens on a later qualifying frame because the turn-on/turn-off conditions
read the light detector's state, not the tracked state). -/
theorem c5_amended (cfg : SLConfig) (htm : cfg.test_mode = false) :
    (∀ a : EspAction, espLightControl cfg a false
      = (false, [Act.espCall a, Act.espFail])) ∧
    (∀ (s : SLState) (nid : ℕ),
      (handleUserResponse cfg s nid .turn_off false).1.lights_on = s.lights_on) ∧
    (∀ (s : SLState) (tid : ℕ),
      (fireAutoTurnOff cfg s tid false).1.lights_on = s.lights_on) ∧
    (∀ (s : SLState) (cam : ℕ) (ls : Option LState) (pd : Bool) (now : ℚ) (e : Bool),
      (processFrame cfg s cam ls pd now false).1
        = (processFrame cfg s cam ls pd now e).1) := by
  refine ⟨?_, ?_, ?_, ?_⟩
  · intro a
    simp [espLightControl, htm]
  · intro s nid
    cases hsch : s.auto_turn_off_scheduled <;>
      simp [handleUserResponse, espLightControl, htm, hsch]
  · intro s tid
    cases hl : lookupA s.timers tid with
    | none => simp [fireAutoTurnOff, hl]
    | some t =>
      cases hc : t.cancelled <;>
        simp [fireAutoTurnOff, hl, hc, espLightControl, htm]
  · intro s cam ls pd now e
    simp only [processFrame,
      apply_ite (Prod.fst : SLState × List Act → SLState)]

/-- Witness for the amended C5 at a concrete input: a failing `off` call
leaves `lights_on` untouched in `handle_user_response`, and a failing `on`
call leads `process_frame` to the same state as a succeeding one. -/
theorem c5_amended_witness :
    (handleUserResponse slaConfig
      ⟨[], [], [], true, some 7, none, [], 0, 0⟩ 7 .turn_off false).1.lights_on = true ∧
    (processFrame slaConfig
      ⟨[(0, some .off)], [(0, 0)], [(0, 0)], false, none, none, [], 0, 0⟩
      0 (some .off) true 10 false).1
      = (processFrame slaConfig
        ⟨[(0, some .off)], [(0, 0)], [(0, 0)], false, none, none, [], 0, 0⟩
        0 (some .off) true 10 true).1 :=
  ⟨(c5_amended slaConfig rfl).2.1 ⟨[], [], [], true, some 7, none, [], 0, 0⟩ 7,
    (c5_amended slaConfig rfl).2.2.2
      ⟨[(0, some .off)], [(0, 0)], [(0, 0)], false, none, none, [], 0, 0⟩
      0 (some .off) true 10 true⟩

/-- C8 counterexample: on the single-pixel frame stream
`0, 20, 40, 60, 80, 100` (each step differing by 20 ≤ 25 from its
predecessor, but frame 5 differing by 100 > 25 from the last *processed*
frame 0), the code processes only frame 0 — `prev_frame` is updated on every
frame, so the per-step difference never crosses the byte threshold — while
the claimed rule (ratio against the previously sampled frame) processes
frame 5 as well (ratio 1 > 0.05 with a gap of 5 ≥ `MIN_FRAME_GAP`). -/
theorem c8_counterexample :
    samplerRun initSampler [[(0 : ℤ)], [20], [40], [60], [80], [100]]
      = [true, false, false, false, false, false] ∧
    claimRun initClaimSampler [[(0 : ℤ)], [20], [40], [60], [80], [100]]
      = [true, false, false, false, false, true] := by
  constructor <;>
    norm_num [samplerRun, samplerStep, claimRun, claimStep, motionScore,
      initSampler, initClaimSampler, MIN_FRAME_GAP, FRAME_INTERVAL, MOTION_THRESHOLD,
      List.zip_cons_cons, List.zip_nil_right, List.zip_nil_left, List.filter]

/-- The code's sampling decision coincides with the amended rule at every
reachable state (a state whose previous frame, when present, was consumed at
a positive frame number). -/
theorem samplerStep_eq_amended (s : SamplerState) (f : List ℤ)
    (hinv : s.prev_frame = none ∨ s.frame_number ≠ 0) :
    (samplerStep s f).2
      = amendedStep s.prev_frame s.last_processed_frame s.frame_number f := by
  cases hp : s.prev_frame with
  | none =>
    by_cases h1 : s.frame_number = 0 <;>
      by_cases h2 : FRAME_INTERVAL ≤ s.frame_number - s.last_processed_frame <;>
        simp [samplerStep, amendedStep, amendedMotion, hp, h1, h2]
  | some p =>
    have hn0 : s.frame_number ≠ 0 := by
      rcases hinv with h | h
      · rw [hp] at h
        exact Option.noConfusion h
      · exact h
    by_cases h1 : MIN_FRAME_GAP ≤ s.frame_number - s.last_processed_frame <;>
      by_cases h2 : MOTION_THRESHOLD < motionScore p f <;>
        by_cases h3 : FRAME_INTERVAL ≤ s.frame_number - s.last_processed_frame <;>
          simp [samplerStep, amendedStep, amendedMotion, hp, hn0, h1, h2, h3]

/-- Run form of the previous lemma: along any run the two decision streams
agree. -/
theorem samplerRun_eq_amendedRun : ∀ (fs : List (List ℤ)) (s : SamplerState),
    0 ≤ s.frame_number → (s.prev_frame = none ∨ s.frame_number ≠ 0) →
    samplerRun s fs
      = amendedRun s.prev_frame s.last_processed_frame s.frame_number fs := by
  intro fs
  induction fs with
  | nil => intro s _ _; rfl
  | cons f fs ih =>
    intro s hpos hinv
    have hd := samplerStep_eq_amended s f hinv
    simp only [samplerRun, amendedRun]
    rw [← hd]
    congr 1
    have hnext := ih (samplerStep s f).1 (by simp [samplerStep]; omega)
      (Or.inr (by simp [samplerStep]; omega))
    exact hnext

/-- C8 amended: the sampler's decision stream is exactly the claimed rule —
process on the very first frame, on motion with at least `MIN_FRAME_GAP`
frames since the last processed frame, or on a `FRAME_INTERVAL` forced
refresh — except that the motion ratio is computed against the *immediately
preceding* frame's down-scaled copy (updated on every frame), not against
the previously sampled frame. -/
theorem c8_amended (fs : List (List ℤ)) :
    samplerRun initSampler fs = amendedRun none (-MIN_FRAME_GAP) 0 fs :=
  samplerRun_eq_amendedRun fs initSampler (by norm_num [initSampler]) (Or.inl rfl)

end Owl
